import Mathlib

/-!
Verification development for the Zephyr multi-currency reconciliation tool.

The repository splits into a Python backend (the reconciliation engine) and a
React frontend.  The frontend sources (`App.tsx`, `types.ts`,
`TransactionModal.tsx`, `DiscrepancyTable.tsx`, `Charts` in `FileUpload.tsx`,
`AlertsPanel.tsx`) are embedded directly; the backend engine
(`backend/main.py`: `reconcile()` / `detect_patterns()`) is not part of the
available sources, so its behaviour is modelled from the specification
(spec.md §4.1-§4.6), as indicated by the doc comments below.

All monetary and rate values are embedded as rationals (`ℚ`): the spec (§4.2)
mandates exact decimal semantics for the engine's arithmetic.  Where the
frontend's JavaScript division semantics matter (division by zero producing an
infinity), a dedicated `JSNum` type captures the non-finite outcomes exactly.
-/

namespace Zephyr

/-- Match status of a joined transaction (frontend `types.ts`, spec §3). -/
inductive Status
  | matched
  | unmatched_order
  | unmatched_settlement
deriving DecidableEq, Repr

/-- Modelled from the spec: an order-ledger row (§3 OrderRecord, §6 input
columns; the backend parser `parse_orders` is not in the available sources). -/
structure OrderRecord where
  transaction_id : String
  order_date : Option String
  customer_currency : Option String
  original_amount : Option ℚ
  payment_processor : Option String
deriving DecidableEq, Repr

/-- Modelled from the spec: a settlement-report row (§3 SettlementRecord, §6
input columns; the backend parser `parse_settlements` is not in the available
sources). -/
structure SettlementRecord where
  transaction_id : String
  settlement_date : Option String
  usd_amount_received : Option ℚ
  fx_rate_applied : Option ℚ
  fees_deducted : Option ℚ
deriving DecidableEq, Repr

/-- The joined transaction entity (frontend `types.ts`, interface
`Transaction`). -/
structure Transaction where
  transaction_id : String
  order_date : Option String
  settlement_date : Option String
  customer_currency : Option String
  original_amount : Option ℚ
  payment_processor : Option String
  fx_rate_applied : Option ℚ
  fees_deducted : Option ℚ
  expected_usd : Option ℚ
  actual_usd : Option ℚ
  difference : Option ℚ
  difference_pct : Option ℚ
  fx_deviation_pct : Option ℚ
  status : Status
  is_discrepancy : Bool
  discrepancy_reason : Option String
deriving DecidableEq, Repr

/-- Pattern-alert type tags (frontend `types.ts`, interface `PatternAlert`). -/
inductive AlertType
  | processor
  | currency
  | large_discrepancy
  | fx_rate
deriving DecidableEq, Repr

/-- Alert severity levels (frontend `types.ts`). -/
inductive Severity
  | critical
  | high
  | medium
deriving DecidableEq, Repr

/-- A pattern alert (frontend `types.ts`; only the fields the claims touch). -/
structure PatternAlert where
  type : AlertType
  severity : Severity
  transaction_ids : List String
deriving DecidableEq, Repr

/-- The terminal result object (frontend `types.ts`, interface
`ReconciliationResult`).  The per-currency and per-processor stat mappings
are not modelled: no property below concerns them. -/
structure ReconciliationResult where
  total_orders : Nat
  total_settlements : Nat
  matched : Nat
  unmatched_orders : Nat
  unmatched_settlements : Nat
  flagged_count : Nat
  total_discrepancy_usd : ℚ
  transactions : List Transaction
  pattern_alerts : List PatternAlert
deriving DecidableEq, Repr

/-- Static market reference rates (source `TransactionModal.tsx` lines 10-16,
`MARKET_RATES`, mirrored from the backend): MXN 17.5, BRL 5.0, IDR 15500,
KES 130, COP 4000. -/
def MARKET_RATES : List (String × ℚ) :=
  [("MXN", 35/2), ("BRL", 5), ("IDR", 15500), ("KES", 130), ("COP", 4000)]

/-- Look a currency up in a reference-rate table. -/
def marketRate (rates : List (String × ℚ)) (c : String) : Option ℚ :=
  (rates.find? (fun p => p.1 == c)).map Prod.snd

/-- Modelled from the spec: `gross_usd = original_amount / fx_rate_applied`,
null when either input is missing or the rate is zero (§4.2; the backend
calculator inside `reconcile()` is not in the available sources). -/
def computeGross (original_amount fx_rate_applied : Option ℚ) : Option ℚ :=
  match original_amount, fx_rate_applied with
  | some a, some r => if r = 0 then none else some (a / r)
  | _, _ => none

/-- Modelled from the spec: `expected_usd = gross_usd - fees_deducted`,
null when either input is missing (§4.2). -/
def computeExpected (gross fees : Option ℚ) : Option ℚ :=
  match gross, fees with
  | some g, some f => some (g - f)
  | _, _ => none

/-- Modelled from the spec: `difference = actual_usd - expected_usd`,
null when either input is missing (§4.2). -/
def computeDifference (actual expected : Option ℚ) : Option ℚ :=
  match actual, expected with
  | some a, some e => some (a - e)
  | _, _ => none

/-- Modelled from the spec: `difference_pct = (difference / expected_usd) *
100`, null when `expected_usd` is zero or either input is missing (§4.2). -/
def computeDiffPct (difference expected : Option ℚ) : Option ℚ :=
  match difference, expected with
  | some d, some e => if e = 0 then none else some (d / e * 100)
  | _, _ => none

/-- Modelled from the spec: `fx_deviation_pct = ((fx_rate_applied -
market_rate) / market_rate) * 100`, null when the currency or rate is missing
or the currency has no reference entry (§4.3). -/
def computeFxDeviation (rates : List (String × ℚ))
    (currency : Option String) (fx : Option ℚ) : Option ℚ :=
  match currency, fx with
  | some c, some r =>
    match marketRate rates c with
    | some m => some ((r - m) / m * 100)
    | none => none
  | _, _ => none

/-- Modelled from the spec: a matched transaction is flagged iff `difference`
is non-null and `|difference| > 0.50` USD, strict comparison (§4.4). -/
def matchedFlagged (difference : Option ℚ) : Bool :=
  match difference with
  | some d => decide ((1 : ℚ)/2 < |d|)
  | none => false

/-- Modelled from the spec: human-readable reason for a flagged matched
transaction (§4.4). -/
def matchedReason (difference : Option ℚ) : Option String :=
  if matchedFlagged difference then
    some "settlement amount differs from expected"
  else none

/-- Modelled from the spec: build the joined Transaction for an order with a
matching settlement, enriched by the calculator (§4.2), FX evaluator (§4.3)
and classifier (§4.4). -/
def mkMatched (rates : List (String × ℚ)) (o : OrderRecord)
    (s : SettlementRecord) : Transaction :=
  let gross := computeGross o.original_amount s.fx_rate_applied
  let expected := computeExpected gross s.fees_deducted
  let difference := computeDifference s.usd_amount_received expected
  { transaction_id := o.transaction_id
    order_date := o.order_date
    settlement_date := s.settlement_date
    customer_currency := o.customer_currency
    original_amount := o.original_amount
    payment_processor := o.payment_processor
    fx_rate_applied := s.fx_rate_applied
    fees_deducted := s.fees_deducted
    expected_usd := expected
    actual_usd := s.usd_amount_received
    difference := difference
    difference_pct := computeDiffPct difference expected
    fx_deviation_pct := computeFxDeviation rates o.customer_currency s.fx_rate_applied
    status := Status.matched
    is_discrepancy := matchedFlagged difference
    discrepancy_reason := matchedReason difference }

/-- Modelled from the spec: Transaction for an order with no settlement;
derived fields stay null, structurally flagged with a reason (§4.4). -/
def mkUnmatchedOrder (o : OrderRecord) : Transaction :=
  { transaction_id := o.transaction_id
    order_date := o.order_date
    settlement_date := none
    customer_currency := o.customer_currency
    original_amount := o.original_amount
    payment_processor := o.payment_processor
    fx_rate_applied := none
    fees_deducted := none
    expected_usd := none
    actual_usd := none
    difference := none
    difference_pct := none
    fx_deviation_pct := none
    status := Status.unmatched_order
    is_discrepancy := true
    discrepancy_reason := some "no settlement found" }

/-- Modelled from the spec: Transaction for a settlement with no order;
structurally flagged with a reason (§4.4). -/
def mkUnmatchedSettlement (s : SettlementRecord) : Transaction :=
  { transaction_id := s.transaction_id
    order_date := none
    settlement_date := s.settlement_date
    customer_currency := none
    original_amount := none
    payment_processor := none
    fx_rate_applied := s.fx_rate_applied
    fees_deducted := s.fees_deducted
    expected_usd := none
    actual_usd := s.usd_amount_received
    difference := none
    difference_pct := none
    fx_deviation_pct := none
    status := Status.unmatched_settlement
    is_discrepancy := true
    discrepancy_reason := some "no matching order" }

/-- Modelled from the spec: the matcher's full outer join, order side — every
order row joined against the first settlement with the same identifier,
exact string match (§4.1). -/
def matchOrders (rates : List (String × ℚ)) (orders : List OrderRecord)
    (settlements : List SettlementRecord) : List Transaction :=
  orders.map fun o =>
    match settlements.find? (fun s => s.transaction_id == o.transaction_id) with
    | some s => mkMatched rates o s
    | none => mkUnmatchedOrder o

/-- Modelled from the spec: the settlements with no order counterpart,
appended after the order-side transactions in settlement order (§4.1). -/
def unmatchedSettlementTxs (orders : List OrderRecord)
    (settlements : List SettlementRecord) : List Transaction :=
  (settlements.filter
      (fun s => !(orders.any (fun o => o.transaction_id == s.transaction_id)))).map
    mkUnmatchedSettlement

/-- Modelled from the spec: the full ordered Transaction sequence (§4.1). -/
def reconcileTransactions (rates : List (String × ℚ))
    (orders : List OrderRecord) (settlements : List SettlementRecord) :
    List Transaction :=
  matchOrders rates orders settlements ++ unmatchedSettlementTxs orders settlements

/-- Modelled from the spec: the adverse-FX predicate of the pattern detector —
a matched transaction with `fx_deviation_pct > 3` (§4.6). -/
def fxSignal (t : Transaction) : Bool :=
  t.status == Status.matched &&
    (match t.fx_deviation_pct with
     | some d => decide ((3 : ℚ) < d)
     | none => false)

/-- Modelled from the spec: the adverse-FX rule of the pattern detector —
the qualifying transactions batched into one `fx_rate` alert of severity
`medium` (§4.6; the backend `detect_patterns()` is not in the available
sources; the other rule families are not needed by any property below). -/
def fxAlerts (txs : List Transaction) : List PatternAlert :=
  let hits := txs.filter fxSignal
  if hits.isEmpty then []
  else
    [{ type := AlertType.fx_rate
       severity := Severity.medium
       transaction_ids := hits.map (fun t => t.transaction_id) }]

/-- Modelled from the spec: the whole engine run — matcher, enrichment,
summary counters over the full Transaction sequence (§4.5) and the pattern
alerts (§4.6). -/
def reconcile (rates : List (String × ℚ)) (orders : List OrderRecord)
    (settlements : List SettlementRecord) : ReconciliationResult :=
  let txs := reconcileTransactions rates orders settlements
  { total_orders := orders.length
    total_settlements := settlements.length
    matched := txs.countP (fun t => t.status == Status.matched)
    unmatched_orders := txs.countP (fun t => t.status == Status.unmatched_order)
    unmatched_settlements :=
      txs.countP (fun t => t.status == Status.unmatched_settlement)
    flagged_count := txs.countP (fun t => t.is_discrepancy)
    total_discrepancy_usd :=
      (txs.map (fun t =>
        if t.is_discrepancy then ((t.difference.map abs).getD 0) else 0)).sum
    transactions := txs
    pattern_alerts := fxAlerts txs }

/-! ## Frontend definitions embedded from the TSX sources -/

/-- A JavaScript number outcome: finite value, an infinity, or NaN.  Division
of finite IEEE doubles by zero is exact (no rounding is involved), so these
cases embed JS arithmetic faithfully where it matters below. -/
inductive JSNum
  | num : ℚ → JSNum
  | posInf
  | negInf
  | nan
deriving DecidableEq, Repr

/-- JavaScript division `a / b` of two finite numbers. -/
def jsDiv (a b : ℚ) : JSNum :=
  if b = 0 then
    if a = 0 then JSNum.nan
    else if 0 < a then JSNum.posInf
    else JSNum.negInf
  else JSNum.num (a / b)

/-- `TransactionModal.tsx` lines 57-59: the modal's re-derived gross USD,
`original_amount / fx_rate_applied` when both are non-null, else null.
The source guards only against null, not against a zero rate. -/
def modalGrossUsd (t : Transaction) : Option JSNum :=
  match t.original_amount, t.fx_rate_applied with
  | some a, some r => some (jsDiv a r)
  | _, _ => none

/-- Row highlight colours used by the modal and the table. -/
inductive Highlight
  | red
  | amber
  | green
deriving DecidableEq, Repr

/-- `TransactionModal.tsx` lines 61-63: difference-row highlight — red below
-0.5, amber above 0.5, green otherwise, none when the difference is null. -/
def differenceHighlight (t : Transaction) : Option Highlight :=
  match t.difference with
  | none => none
  | some d =>
    if d < -(1/2 : ℚ) then some Highlight.red
    else if (1/2 : ℚ) < d then some Highlight.amber
    else some Highlight.green

/-- `TransactionModal.tsx` lines 122-128: the Market Reference Rate row warns
(amber highlight, "worse" note) iff `fxDeviation != null && fxDeviation > 3`. -/
def modalFxWarning (t : Transaction) : Bool :=
  match t.fx_deviation_pct with
  | some d => decide ((3 : ℚ) < d)
  | none => false

/-- `TransactionModal.tsx` line 159: the Actual USD Received row highlight.
When `is_discrepancy` holds the source compares `t.actual_usd! <
t.expected_usd!` through non-null assertions; a null operand there is the
unguarded read, embedded as the `none` outcome. -/
def modalActualHighlight (t : Transaction) : Option Highlight :=
  if t.is_discrepancy then
    match t.actual_usd, t.expected_usd with
    | some a, some e =>
      some (if a < e then Highlight.red else Highlight.amber)
    | _, _ => none
  else some Highlight.green

/-- `FileUpload.tsx` (Charts) lines 226-231: the status-breakdown pie's
"Matched Clean" value, `result.matched - result.flagged_count` (JS subtraction
can go negative, hence `Int`). -/
def statusDataMatchedClean (r : ReconciliationResult) : Int :=
  (r.matched : Int) - (r.flagged_count : Int)

/-- `App.tsx` lines 39-41: the CSV-export row filter,
`t.is_discrepancy || t.status !== 'matched'`. -/
def exportPredicate (t : Transaction) : Bool :=
  t.is_discrepancy || !(t.status == Status.matched)

/-- The JSON string form of a status (`types.ts`). -/
def statusStr : Status → String
  | Status.matched => "matched"
  | Status.unmatched_order => "unmatched_order"
  | Status.unmatched_settlement => "unmatched_settlement"

/-- `App.tsx` lines 42-47: the 14 exported column names, in order. -/
def exportCols : List String :=
  ["transaction_id", "status", "order_date", "settlement_date",
   "customer_currency", "original_amount", "payment_processor",
   "fx_rate_applied", "fees_deducted", "expected_usd", "actual_usd",
   "difference", "difference_pct", "discrepancy_reason"]

/-- `App.tsx` line 50: the field values of one exported row, `t[c] ?? ''` for
each column — null rendered as the empty string, numbers rendered through the
ambient number-to-string conversion `showNum`. -/
def fieldValues (showNum : ℚ → String) (t : Transaction) : List String :=
  [t.transaction_id, statusStr t.status,
   t.order_date.getD "", t.settlement_date.getD "",
   t.customer_currency.getD "",
   (t.original_amount.map showNum).getD "",
   t.payment_processor.getD "",
   (t.fx_rate_applied.map showNum).getD "",
   (t.fees_deducted.map showNum).getD "",
   (t.expected_usd.map showNum).getD "",
   (t.actual_usd.map showNum).getD "",
   (t.difference.map showNum).getD "",
   (t.difference_pct.map showNum).getD "",
   t.discrepancy_reason.getD ""]

/-- Join character-lists with a separator character (the `.join(',')` /
`.join('\n')` calls of `App.tsx` lines 48-51, over explicit character
lists). -/
def joinOn (c : Char) : List (List Char) → List Char
  | [] => []
  | [x] => x
  | x :: y :: xs => x ++ c :: joinOn c (y :: xs)

/-- `App.tsx` line 49: the header line, the column names joined by commas. -/
def csvHeader : List Char :=
  joinOn ',' (exportCols.map String.data)

/-- `App.tsx` line 50: one data row, the field values joined by commas. -/
def csvRow (showNum : ℚ → String) (t : Transaction) : List Char :=
  joinOn ',' ((fieldValues showNum t).map String.data)

/-- `App.tsx` lines 37-51 (`handleExport`): the exported CSV text — header
line, then one row per transaction passing the export filter, in sequence
order, joined by newlines. -/
def handleExportCsv (showNum : ℚ → String) (ts : List Transaction) :
    List Char :=
  joinOn '\n' (csvHeader :: (ts.filter exportPredicate).map (csvRow showNum))

/-- Split a character list at every occurrence of a separator character (the
formalisation of "comma-separated fields" / "lines"). -/
def splitOnChar (c : Char) : List Char → List (List Char)
  | [] => [[]]
  | a :: rest =>
    match splitOnChar c rest with
    | [] => [[]]
    | x :: xs => if a = c then [] :: x :: xs else (a :: x) :: xs

/-! ## Sample inputs used by the witnesses -/

/-- A sample order row. -/
def c1Order : OrderRecord :=
  { transaction_id := "C1-T1", order_date := some "2024-01-01",
    customer_currency := some "BRL", original_amount := some 100,
    payment_processor := some "PayU" }

/-- The matching sample settlement row, rate 5 BRL/USD, 2 USD fees, 18 USD
received. -/
def c1Settlement : SettlementRecord :=
  { transaction_id := "C1-T1", settlement_date := some "2024-01-03",
    usd_amount_received := some 18, fx_rate_applied := some 5,
    fees_deducted := some 2 }

/-- A sample order row for the classifier boundary. -/
def c2Order : OrderRecord :=
  { transaction_id := "C2-T1", order_date := some "2024-01-02",
    customer_currency := some "BRL", original_amount := some 100,
    payment_processor := some "Xendit" }

/-- A settlement 7 USD over the expected amount (expected 18, received 25). -/
def c2Settlement : SettlementRecord :=
  { transaction_id := "C2-T1", settlement_date := some "2024-01-04",
    usd_amount_received := some 25, fx_rate_applied := some 5,
    fees_deducted := some 2 }

/-- A sample order with no settlement counterpart. -/
def c3Order : OrderRecord :=
  { transaction_id := "C3-T1", order_date := some "2024-01-05",
    customer_currency := some "MXN", original_amount := some 350,
    payment_processor := some "dLocal" }

/-- A sample order whose settlement carries a zero FX rate. -/
def c4Order : OrderRecord :=
  { transaction_id := "C4-T1", order_date := some "2024-02-01",
    customer_currency := some "MXN", original_amount := some 100,
    payment_processor := some "PayU" }

/-- The matching settlement with `fx_rate_applied = 0`. -/
def c4Settlement : SettlementRecord :=
  { transaction_id := "C4-T1", settlement_date := some "2024-02-04",
    usd_amount_received := some 50, fx_rate_applied := some 0,
    fees_deducted := some 2 }

/-- A matched sample for the FX-miss witness: currency USD has no reference
entry. -/
def c7Order : OrderRecord :=
  { transaction_id := "C7-T1", order_date := some "2024-01-06",
    customer_currency := some "USD", original_amount := some 100,
    payment_processor := some "Stripe" }

/-- The matching settlement for the FX-miss witness. -/
def c7Settlement : SettlementRecord :=
  { transaction_id := "C7-T1", settlement_date := some "2024-01-08",
    usd_amount_received := some 90, fx_rate_applied := some 1,
    fees_deducted := some 3 }

/-- A matched transaction with a 5 percent adverse FX deviation. -/
def c6Tx : Transaction :=
  { transaction_id := "C6-T1", order_date := none, settlement_date := none,
    customer_currency := some "BRL", original_amount := none,
    payment_processor := none, fx_rate_applied := none, fees_deducted := none,
    expected_usd := none, actual_usd := none, difference := none,
    difference_pct := none, fx_deviation_pct := some 5,
    status := Status.matched, is_discrepancy := false,
    discrepancy_reason := none }

/-- A sample order for the modal-highlight witness. -/
def c8Order : OrderRecord :=
  { transaction_id := "C8-T1", order_date := some "2024-01-09",
    customer_currency := some "BRL", original_amount := some 100,
    payment_processor := some "MercadoPago" }

/-- The matching settlement, 7 USD over the expected amount. -/
def c8Settlement : SettlementRecord :=
  { transaction_id := "C8-T1", settlement_date := some "2024-01-11",
    usd_amount_received := some 25, fx_rate_applied := some 5,
    fees_deducted := some 2 }

/-! ## Theorems -/

/-- Decompose membership in the engine's output sequence: every produced
transaction is a matched join result, an unmatched order, or an unmatched
settlement. -/
theorem mem_reconcile_cases {rates : List (String × ℚ)}
    {orders : List OrderRecord} {settlements : List SettlementRecord}
    {t : Transaction}
    (h : t ∈ (reconcile rates orders settlements).transactions) :
    (∃ o ∈ orders, ∃ s : SettlementRecord,
        settlements.find? (fun s' => s'.transaction_id == o.transaction_id)
          = some s ∧ t = mkMatched rates o s) ∨
    (∃ o ∈ orders, t = mkUnmatchedOrder o) ∨
    (∃ s ∈ settlements, t = mkUnmatchedSettlement s) := by
  have h' : t ∈ matchOrders rates orders settlements ∨
      t ∈ unmatchedSettlementTxs orders settlements := by
    simpa [reconcile, reconcileTransactions] using h
  rcases h' with h' | h'
  · rw [matchOrders, List.mem_map] at h'
    obtain ⟨o, ho, hdef⟩ := h'
    rcases hf : settlements.find?
        (fun s' => s'.transaction_id == o.transaction_id) with _ | s
    · right; left
      refine ⟨o, ho, ?_⟩
      rw [hf] at hdef
      exact hdef.symm
    · left
      refine ⟨o, ho, s, hf, ?_⟩
      rw [hf] at hdef
      exact hdef.symm
  · right; right
    rw [unmatchedSettlementTxs, List.mem_map] at h'
    obtain ⟨s, hs, hdef⟩ := h'
    exact ⟨s, (List.mem_filter.mp hs).1, hdef.symm⟩

/-- The matched-classifier flag unfolded: flagged iff the difference is
non-null and exceeds half a dollar in absolute value. -/
theorem matchedFlagged_iff (d : Option ℚ) :
    matchedFlagged d = true ↔ ∃ x, d = some x ∧ (1 : ℚ)/2 < |x| := by
  cases d <;> simp [matchedFlagged]

/-- Splitting a count over a boolean predicate and its negation. -/
theorem countP_add_countP_not {α : Type} (p : α → Bool) (l : List α) :
    l.countP p + l.countP (fun a => !p a) = l.length := by
  induction l with
  | nil => rfl
  | cons a l ih =>
    cases h : p a <;> simp [List.countP_cons, h, ← ih] <;> omega

/-- Membership-count symmetry on duplicate-free lists: each side counts the
common elements. -/
theorem countP_mem_comm {α : Type} [DecidableEq α] (l1 l2 : List α)
    (h1 : l1.Nodup) (h2 : l2.Nodup) :
    l1.countP (fun a => decide (a ∈ l2))
      = l2.countP (fun a => decide (a ∈ l1)) := by
  have key : ∀ u v : List α, u.Nodup →
      u.countP (fun a => decide (a ∈ v)) = (u.toFinset ∩ v.toFinset).card := by
    intro u v hu
    rw [List.countP_eq_length_filter,
      ← List.toFinset_card_of_nodup (hu.filter _), List.toFinset_filter]
    congr 1
    rw [← Finset.filter_mem_eq_inter]
    refine Finset.filter_congr ?_
    intro x _
    simp
  rw [key l1 l2 h1, key l2 l1 h2, Finset.inter_comm]

/-- The order-side join result has status `matched` exactly when the order's
identifier appears among the settlement identifiers. -/
theorem matchOrders_status_matched (rates : List (String × ℚ))
    (o : OrderRecord) (settlements : List SettlementRecord) :
    ((match settlements.find?
        (fun s' : SettlementRecord =>
          s'.transaction_id == o.transaction_id) with
      | some s => mkMatched rates o s
      | none => mkUnmatchedOrder o).status == Status.matched)
    = decide (o.transaction_id ∈
        settlements.map (fun s => s.transaction_id)) := by
  rcases hf : settlements.find?
      (fun s' : SettlementRecord =>
        s'.transaction_id == o.transaction_id) with _ | s
  · have hnone := List.find?_eq_none.mp hf
    have hmem : o.transaction_id ∉
        settlements.map (fun s => s.transaction_id) := by
      intro hmem
      obtain ⟨s, hs, heq⟩ := List.mem_map.mp hmem
      exact hnone s hs (by simp [heq])
    simp [mkUnmatchedOrder, hmem]
  · have hs := List.mem_of_find?_eq_some hf
    have heq : s.transaction_id = o.transaction_id := by
      simpa using List.find?_some hf
    have hmem : o.transaction_id ∈
        settlements.map (fun s => s.transaction_id) :=
      List.mem_map.mpr ⟨s, hs, heq⟩
    simp [mkMatched, hmem]

/-- Whether some element of a list carries a given identifier, as a
membership test on the projected identifiers. -/
theorem any_eq_mem_map {α : Type} (l : List α) (f : α → String) (x : String) :
    l.any (fun a => f a == x) = decide (x ∈ l.map f) := by
  rw [Bool.eq_iff_iff]
  simp [List.any_eq_true, List.mem_map]

/-- The engine's `matched` counter counts the orders whose identifier appears
among the settlement identifiers. -/
theorem reconcile_matched_count (rates : List (String × ℚ))
    (orders : List OrderRecord) (settlements : List SettlementRecord) :
    (reconcile rates orders settlements).matched
      = orders.countP (fun o => decide (o.transaction_id ∈
          settlements.map (fun s => s.transaction_id))) := by
  have hdef : (reconcile rates orders settlements).matched
      = (reconcileTransactions rates orders settlements).countP
          (fun t => t.status == Status.matched) := rfl
  rw [hdef, reconcileTransactions, List.countP_append]
  have h2 : (unmatchedSettlementTxs orders settlements).countP
      (fun t => t.status == Status.matched) = 0 := by
    rw [List.countP_eq_zero]
    intro t ht
    rw [unmatchedSettlementTxs, List.mem_map] at ht
    obtain ⟨s, _, rfl⟩ := ht
    simp [mkUnmatchedSettlement]
  rw [h2, Nat.add_zero, matchOrders, List.countP_map]
  refine List.countP_congr ?_
  intro o _
  simp only [Function.comp_apply]
  rw [matchOrders_status_matched rates o settlements]

/-- The engine's `unmatched_orders` counter counts the orders whose
identifier appears among no settlement identifier. -/
theorem reconcile_unmatched_orders_count (rates : List (String × ℚ))
    (orders : List OrderRecord) (settlements : List SettlementRecord) :
    (reconcile rates orders settlements).unmatched_orders
      = orders.countP (fun o => !decide (o.transaction_id ∈
          settlements.map (fun s => s.transaction_id))) := by
  have hdef : (reconcile rates orders settlements).unmatched_orders
      = (reconcileTransactions rates orders settlements).countP
          (fun t => t.status == Status.unmatched_order) := rfl
  rw [hdef, reconcileTransactions, List.countP_append]
  have h2 : (unmatchedSettlementTxs orders settlements).countP
      (fun t => t.status == Status.unmatched_order) = 0 := by
    rw [List.countP_eq_zero]
    intro t ht
    rw [unmatchedSettlementTxs, List.mem_map] at ht
    obtain ⟨s, _, rfl⟩ := ht
    simp [mkUnmatchedSettlement]
  rw [h2, Nat.add_zero, matchOrders, List.countP_map]
  refine List.countP_congr ?_
  intro o _
  simp only [Function.comp_apply]
  rcases hf : settlements.find?
      (fun s' : SettlementRecord =>
        s'.transaction_id == o.transaction_id) with _ | s
  · have hnone := List.find?_eq_none.mp hf
    have hmem : o.transaction_id ∉
        settlements.map (fun s => s.transaction_id) := by
      intro hmem
      obtain ⟨s, hs, heq⟩ := List.mem_map.mp hmem
      exact hnone s hs (by simp [heq])
    simp [mkUnmatchedOrder, hmem]
  · have hs := List.mem_of_find?_eq_some hf
    have heq : s.transaction_id = o.transaction_id := by
      simpa using List.find?_some hf
    have hmem : o.transaction_id ∈
        settlements.map (fun s => s.transaction_id) :=
      List.mem_map.mpr ⟨s, hs, heq⟩
    simp [mkMatched, hmem]

/-- The engine's `unmatched_settlements` counter counts the settlements whose
identifier appears among no order identifier. -/
theorem reconcile_unmatched_settlements_count (rates : List (String × ℚ))
    (orders : List OrderRecord) (settlements : List SettlementRecord) :
    (reconcile rates orders settlements).unmatched_settlements
      = settlements.countP (fun s => !decide (s.transaction_id ∈
          orders.map (fun o => o.transaction_id))) := by
  have hdef : (reconcile rates orders settlements).unmatched_settlements
      = (reconcileTransactions rates orders settlements).countP
          (fun t => t.status == Status.unmatched_settlement) := rfl
  rw [hdef, reconcileTransactions, List.countP_append]
  have h1 : (matchOrders rates orders settlements).countP
      (fun t => t.status == Status.unmatched_settlement) = 0 := by
    rw [List.countP_eq_zero]
    intro t ht
    rw [matchOrders, List.mem_map] at ht
    obtain ⟨o, _, hdef'⟩ := ht
    rcases hf : settlements.find?
        (fun s' => s'.transaction_id == o.transaction_id) with _ | s <;>
      rw [hf] at hdef' <;> rw [← hdef'] <;>
      simp [mkMatched, mkUnmatchedOrder]
  rw [h1, Nat.zero_add, unmatchedSettlementTxs, List.countP_map]
  have hall : ∀ x ∈ settlements.filter
      (fun s => !(orders.any (fun o => o.transaction_id == s.transaction_id))),
      ((fun t => t.status == Status.unmatched_settlement) ∘
        mkUnmatchedSettlement) x := by
    intro x _
    simp [mkUnmatchedSettlement]
  rw [List.countP_eq_length.mpr hall, ← List.countP_eq_length_filter]
  refine List.countP_congr ?_
  intro s _
  rw [any_eq_mem_map orders (fun o => o.transaction_id) s.transaction_id]

/-- C5: in every engine result with duplicate-free identifiers on each side,
`total_orders = matched + unmatched_orders`, `total_settlements = matched +
unmatched_settlements`, and `flagged_count` is the number of transactions
with `is_discrepancy = true`. -/
theorem result_counter_invariants (rates : List (String × ℚ))
    (orders : List OrderRecord) (settlements : List SettlementRecord)
    (ho : (orders.map (fun o => o.transaction_id)).Nodup)
    (hs : (settlements.map (fun s => s.transaction_id)).Nodup) :
    (reconcile rates orders settlements).total_orders
      = (reconcile rates orders settlements).matched
        + (reconcile rates orders settlements).unmatched_orders ∧
    (reconcile rates orders settlements).total_settlements
      = (reconcile rates orders settlements).matched
        + (reconcile rates orders settlements).unmatched_settlements ∧
    (reconcile rates orders settlements).flagged_count
      = (reconcile rates orders settlements).transactions.countP
          (fun t => t.is_discrepancy) := by
  refine ⟨?_, ?_, rfl⟩
  · rw [reconcile_matched_count, reconcile_unmatched_orders_count]
    exact (countP_add_countP_not _ orders).symm
  · rw [reconcile_matched_count, reconcile_unmatched_settlements_count]
    have hcomm : orders.countP (fun o => decide (o.transaction_id ∈
          settlements.map (fun s => s.transaction_id)))
        = settlements.countP (fun s => decide (s.transaction_id ∈
            orders.map (fun o => o.transaction_id))) := by
      have hmapo : orders.countP (fun o => decide (o.transaction_id ∈
            settlements.map (fun s => s.transaction_id)))
          = (orders.map (fun o => o.transaction_id)).countP
              (fun x => decide (x ∈
                settlements.map (fun s => s.transaction_id))) := by
        rw [List.countP_map]
        rfl
      have hmaps : settlements.countP (fun s => decide (s.transaction_id ∈
            orders.map (fun o => o.transaction_id)))
          = (settlements.map (fun s => s.transaction_id)).countP
              (fun x => decide (x ∈
                orders.map (fun o => o.transaction_id))) := by
        rw [List.countP_map]
        rfl
      rw [hmapo, hmaps, countP_mem_comm _ _ ho hs]
    rw [hcomm]
    exact (countP_add_countP_not _ settlements).symm

/-- C5 witness: the theorem applied to a concrete run with one matched pair
and one extra settlement. -/
theorem result_counter_invariants_witness :
    (reconcile MARKET_RATES [c1Order] [c1Settlement]).total_orders
      = (reconcile MARKET_RATES [c1Order] [c1Settlement]).matched
        + (reconcile MARKET_RATES [c1Order] [c1Settlement]).unmatched_orders ∧
    (reconcile MARKET_RATES [c1Order] [c1Settlement]).total_settlements
      = (reconcile MARKET_RATES [c1Order] [c1Settlement]).matched
        + (reconcile MARKET_RATES [c1Order]
            [c1Settlement]).unmatched_settlements ∧
    (reconcile MARKET_RATES [c1Order] [c1Settlement]).flagged_count
      = (reconcile MARKET_RATES [c1Order] [c1Settlement]).transactions.countP
          (fun t => t.is_discrepancy) :=
  result_counter_invariants MARKET_RATES [c1Order] [c1Settlement]
    (by decide) (by decide)

/-- C6: the adverse-FX signal applies to a transaction iff it is matched with
`fx_deviation_pct` strictly above 3 (exactly 3 triggers neither the alert
signal nor the modal warning); every emitted `fx_rate` alert has severity
`medium`, and every signalled transaction is traceable from the alert's
identifier list. -/
theorem adverse_fx_signal (txs : List Transaction) (t : Transaction) :
    (fxSignal t = true ↔ t.status = Status.matched ∧
      ∃ d, t.fx_deviation_pct = some d ∧ (3 : ℚ) < d) ∧
    (modalFxWarning t = true ↔
      ∃ d, t.fx_deviation_pct = some d ∧ (3 : ℚ) < d) ∧
    (∀ a ∈ fxAlerts txs,
      a.severity = Severity.medium ∧ a.type = AlertType.fx_rate) ∧
    (t ∈ txs → fxSignal t = true →
      ∃ a ∈ fxAlerts txs, t.transaction_id ∈ a.transaction_ids) ∧
    (t.fx_deviation_pct = some 3 →
      fxSignal t = false ∧ modalFxWarning t = false) := by
  refine ⟨?_, ?_, ?_, ?_, ?_⟩
  · cases hd : t.fx_deviation_pct <;>
      simp [fxSignal, hd, Bool.and_eq_true, beq_iff_eq]
  · cases hd : t.fx_deviation_pct <;> simp [modalFxWarning, hd]
  · intro a ha
    rw [fxAlerts] at ha
    by_cases h : (txs.filter fxSignal).isEmpty <;> simp [h] at ha
    subst ha
    exact ⟨rfl, rfl⟩
  · intro htx hsig
    have hmem : t ∈ txs.filter fxSignal := List.mem_filter.mpr ⟨htx, hsig⟩
    have hne : (txs.filter fxSignal).isEmpty = false := by
      rcases h : txs.filter fxSignal with _ | ⟨a, l⟩
      · rw [h] at hmem
        simp at hmem
      · simp
    refine ⟨PatternAlert.mk AlertType.fx_rate Severity.medium
      ((txs.filter fxSignal).map (fun u => u.transaction_id)), ?_, ?_⟩
    · simp [fxAlerts, hne]
    · exact List.mem_map.mpr ⟨t, hmem, rfl⟩
  · intro h3
    constructor
    · simp [fxSignal, h3]
    · simp [modalFxWarning, h3]

/-- C6 witness: the theorem applied to a concrete matched transaction with a
5 percent deviation, traceable from the emitted alert. -/
theorem adverse_fx_signal_witness :
    ∃ a ∈ fxAlerts [c6Tx], c6Tx.transaction_id ∈ a.transaction_ids :=
  (adverse_fx_signal [c6Tx] c6Tx).2.2.2.1 (by decide) (by decide)

/-- C7: an engine-produced transaction whose customer currency has no entry
in the reference table keeps `fx_deviation_pct` null and never carries the
adverse-FX signal, while its discrepancy flag is still the pure
difference-based classification when matched; the recognized reference
currencies are exactly MXN, BRL, IDR, KES and COP. -/
theorem unrecognized_currency (rates : List (String × ℚ))
    (orders : List OrderRecord) (settlements : List SettlementRecord)
    (t : Transaction) (c : String)
    (ht : t ∈ (reconcile rates orders settlements).transactions)
    (hc : t.customer_currency = some c)
    (hm : marketRate rates c = none) :
    t.fx_deviation_pct = none ∧ fxSignal t = false ∧
    (t.status = Status.matched →
      t.is_discrepancy = matchedFlagged t.difference) ∧
    MARKET_RATES.map Prod.fst = ["MXN", "BRL", "IDR", "KES", "COP"] := by
  rcases mem_reconcile_cases ht with
    ⟨o, _, s, _, rfl⟩ | ⟨o, _, rfl⟩ | ⟨s, _, rfl⟩
  · simp only [mkMatched] at hc
    have hdev : (mkMatched rates o s).fx_deviation_pct = none := by
      cases hfx : s.fx_rate_applied <;>
        simp [mkMatched, computeFxDeviation, hc, hm, hfx]
    refine ⟨hdev, ?_, fun _ => rfl, by decide⟩
    simp [fxSignal, hdev]
  · exact ⟨rfl, by simp [fxSignal, mkUnmatchedOrder],
      by intro h; simp [mkUnmatchedOrder] at h, by decide⟩
  · simp [mkUnmatchedSettlement] at hc

/-- C7 witness: the theorem applied to a matched transaction in currency USD,
which has no reference entry. -/
theorem unrecognized_currency_witness :
    (mkMatched MARKET_RATES c7Order c7Settlement).fx_deviation_pct = none ∧
    fxSignal (mkMatched MARKET_RATES c7Order c7Settlement) = false ∧
    ((mkMatched MARKET_RATES c7Order c7Settlement).status = Status.matched →
      (mkMatched MARKET_RATES c7Order c7Settlement).is_discrepancy
        = matchedFlagged (mkMatched MARKET_RATES c7Order c7Settlement).difference) ∧
    MARKET_RATES.map Prod.fst = ["MXN", "BRL", "IDR", "KES", "COP"] :=
  unrecognized_currency MARKET_RATES [c7Order] [c7Settlement]
    (mkMatched MARKET_RATES c7Order c7Settlement) "USD"
    (by simp [reconcile, reconcileTransactions, matchOrders,
      unmatchedSettlementTxs, c7Order, c7Settlement])
    rfl (by decide)

/-- The engine's difference is non-null only when both the actual and the
expected USD amounts are present. -/
theorem computeDifference_some {a e : Option ℚ} {x : ℚ}
    (h : computeDifference a e = some x) :
    a.isSome = true ∧ e.isSome = true := by
  cases a <;> cases e <;> simp [computeDifference] at h ⊢

/-- C8: every engine-produced matched transaction flagged as a discrepancy
has non-null `actual_usd` and `expected_usd`, so the modal's highlight
comparison through non-null assertions never reads a null value. -/
theorem matched_discrepancy_nonnull (rates : List (String × ℚ))
    (orders : List OrderRecord) (settlements : List SettlementRecord)
    (t : Transaction)
    (ht : t ∈ (reconcile rates orders settlements).transactions)
    (hst : t.status = Status.matched)
    (hd : t.is_discrepancy = true) :
    t.actual_usd.isSome = true ∧ t.expected_usd.isSome = true ∧
    (modalActualHighlight t).isSome = true := by
  rcases mem_reconcile_cases ht with
    ⟨o, _, s, _, rfl⟩ | ⟨o, _, rfl⟩ | ⟨s, _, rfl⟩
  · have hd' : matchedFlagged (computeDifference s.usd_amount_received
        (computeExpected (computeGross o.original_amount s.fx_rate_applied)
          s.fees_deducted)) = true := hd
    obtain ⟨x, hx, _⟩ := (matchedFlagged_iff _).mp hd'
    obtain ⟨h1, h2⟩ := computeDifference_some hx
    obtain ⟨av, hav⟩ := Option.isSome_iff_exists.mp h1
    obtain ⟨ev, hev⟩ := Option.isSome_iff_exists.mp h2
    refine ⟨?_, ?_, ?_⟩
    · simpa [mkMatched] using h1
    · simpa [mkMatched] using h2
    · simp only [modalActualHighlight, mkMatched, hav, hev]
      split <;> simp
  · simp [mkUnmatchedOrder] at hst
  · simp [mkUnmatchedSettlement] at hst

/-- C8 witness: the theorem applied to a concrete flagged matched
transaction (difference 7 USD). -/
theorem matched_discrepancy_nonnull_witness :
    (mkMatched MARKET_RATES c8Order c8Settlement).actual_usd.isSome = true ∧
    (mkMatched MARKET_RATES c8Order c8Settlement).expected_usd.isSome = true ∧
    (modalActualHighlight
      (mkMatched MARKET_RATES c8Order c8Settlement)).isSome = true :=
  matched_discrepancy_nonnull MARKET_RATES [c8Order] [c8Settlement]
    (mkMatched MARKET_RATES c8Order c8Settlement)
    (by simp [reconcile, reconcileTransactions, matchOrders,
      unmatchedSettlementTxs, c8Order, c8Settlement])
    rfl
    (by
      rw [mkMatched]
      rw [show computeDifference c8Settlement.usd_amount_received
        (computeExpected (computeGross c8Order.original_amount
          c8Settlement.fx_rate_applied) c8Settlement.fees_deducted)
        = some 7 by norm_num [computeDifference, computeExpected,
          computeGross, c8Order, c8Settlement]]
      simp [matchedFlagged]
      norm_num)

/-- C1: for every matched transaction with original_amount, fx_rate_applied
(non-zero, per §4.2 a zero rate is un-computable), fees_deducted and
actual_usd all present, the stored `expected_usd` is exactly
`original_amount / fx_rate_applied - fees_deducted` and `difference` is
exactly `actual_usd - expected_usd`; the modal's re-derived gross
(`original_amount / fx_rate_applied`) minus `fees_deducted` equals the stored
`expected_usd`. -/
theorem expected_difference_formula (rates : List (String × ℚ))
    (orders : List OrderRecord) (settlements : List SettlementRecord)
    (t : Transaction) (a r f u : ℚ)
    (ht : t ∈ (reconcile rates orders settlements).transactions)
    (hst : t.status = Status.matched)
    (ha : t.original_amount = some a) (hr : t.fx_rate_applied = some r)
    (hr0 : r ≠ 0) (hf : t.fees_deducted = some f)
    (hu : t.actual_usd = some u) :
    t.expected_usd = some (a / r - f) ∧
    t.difference = some (u - (a / r - f)) ∧
    modalGrossUsd t = some (JSNum.num (a / r)) ∧
    (∃ g, modalGrossUsd t = some (JSNum.num g) ∧
      t.expected_usd = some (g - f)) := by
  rcases mem_reconcile_cases ht with
    ⟨o, _, s, _, rfl⟩ | ⟨o, _, rfl⟩ | ⟨s, _, rfl⟩
  · simp only [mkMatched] at ha hr hf hu
    have he : (mkMatched rates o s).expected_usd = some (a / r - f) := by
      simp [mkMatched, computeGross, computeExpected, ha, hr, hf, if_neg hr0]
    have hd : (mkMatched rates o s).difference = some (u - (a / r - f)) := by
      simp [mkMatched, computeGross, computeExpected, computeDifference,
        ha, hr, hf, hu, if_neg hr0]
    have hg : modalGrossUsd (mkMatched rates o s)
        = some (JSNum.num (a / r)) := by
      simp [modalGrossUsd, mkMatched, jsDiv, ha, hr, if_neg hr0]
    exact ⟨he, hd, hg, a / r, hg, he⟩
  · simp [mkUnmatchedOrder] at hst
  · simp [mkUnmatchedSettlement] at hst

/-- C1 witness: the theorem applied to a concrete one-order, one-settlement
run (amount 100 BRL, rate 5, fees 2, received 18). -/
theorem expected_difference_formula_witness :
    (mkMatched MARKET_RATES c1Order c1Settlement).expected_usd
      = some ((100 : ℚ) / 5 - 2) ∧
    (mkMatched MARKET_RATES c1Order c1Settlement).difference
      = some ((18 : ℚ) - ((100 : ℚ) / 5 - 2)) ∧
    modalGrossUsd (mkMatched MARKET_RATES c1Order c1Settlement)
      = some (JSNum.num ((100 : ℚ) / 5)) ∧
    (∃ g, modalGrossUsd (mkMatched MARKET_RATES c1Order c1Settlement)
        = some (JSNum.num g) ∧
      (mkMatched MARKET_RATES c1Order c1Settlement).expected_usd
        = some (g - 2)) :=
  expected_difference_formula MARKET_RATES [c1Order] [c1Settlement]
    (mkMatched MARKET_RATES c1Order c1Settlement) 100 5 2 18
    (by simp [reconcile, reconcileTransactions, matchOrders,
      unmatchedSettlementTxs, c1Order, c1Settlement])
    rfl rfl rfl (by decide) rfl rfl

/-- C2: an engine-produced matched transaction is flagged iff its difference
is non-null with absolute value strictly above 0.50 USD; exactly 0.50 is not
flagged while 0.50000001 and -0.50000001 are. -/
theorem discrepancy_iff_difference (rates : List (String × ℚ))
    (orders : List OrderRecord) (settlements : List SettlementRecord)
    (t : Transaction)
    (ht : t ∈ (reconcile rates orders settlements).transactions)
    (hst : t.status = Status.matched) :
    (t.is_discrepancy = true ↔
      ∃ d, t.difference = some d ∧ (1 : ℚ)/2 < |d|) ∧
    matchedFlagged (some ((1 : ℚ)/2)) = false ∧
    matchedFlagged (some ((50000001 : ℚ)/100000000)) = true ∧
    matchedFlagged (some (-((50000001 : ℚ)/100000000))) = true := by
  refine ⟨?_, ?_, ?_, ?_⟩
  · rcases mem_reconcile_cases ht with
      ⟨o, _, s, _, rfl⟩ | ⟨o, _, rfl⟩ | ⟨s, _, rfl⟩
    · simp only [mkMatched]
      exact matchedFlagged_iff _
    · simp [mkUnmatchedOrder] at hst
    · simp [mkUnmatchedSettlement] at hst
  · simp only [matchedFlagged, decide_eq_false_iff_not, not_lt]
    rw [abs_of_nonneg (by norm_num)]
  · simp only [matchedFlagged, decide_eq_true_eq]
    rw [abs_of_nonneg (by norm_num)]
    norm_num
  · simp only [matchedFlagged, decide_eq_true_eq, abs_neg]
    rw [abs_of_nonneg (by norm_num)]
    norm_num

/-- C2 witness: the theorem applied to a concrete matched transaction whose
difference is 7 USD. -/
theorem discrepancy_iff_difference_witness :
    ((mkMatched MARKET_RATES c2Order c2Settlement).is_discrepancy = true ↔
      ∃ d, (mkMatched MARKET_RATES c2Order c2Settlement).difference = some d ∧
        (1 : ℚ)/2 < |d|) ∧
    matchedFlagged (some ((1 : ℚ)/2)) = false ∧
    matchedFlagged (some ((50000001 : ℚ)/100000000)) = true ∧
    matchedFlagged (some (-((50000001 : ℚ)/100000000))) = true :=
  discrepancy_iff_difference MARKET_RATES [c2Order] [c2Settlement]
    (mkMatched MARKET_RATES c2Order c2Settlement)
    (by simp [reconcile, reconcileTransactions, matchOrders,
      unmatchedSettlementTxs, c2Order, c2Settlement])
    rfl

/-- C3: every engine-produced unmatched transaction is flagged with a
non-null reason, so the CSV-export filter `is_discrepancy || status !==
'matched'` selects exactly the transactions with `is_discrepancy = true`. -/
theorem unmatched_flagged_export_filter (rates : List (String × ℚ))
    (orders : List OrderRecord) (settlements : List SettlementRecord) :
    (∀ t ∈ (reconcile rates orders settlements).transactions,
      (t.status = Status.unmatched_order ∨
       t.status = Status.unmatched_settlement) →
        t.is_discrepancy = true ∧ t.discrepancy_reason.isSome = true) ∧
    (∀ t ∈ (reconcile rates orders settlements).transactions,
      exportPredicate t = t.is_discrepancy) ∧
    (reconcile rates orders settlements).transactions.filter exportPredicate
      = (reconcile rates orders settlements).transactions.filter
          (fun t => t.is_discrepancy) := by
  have hkey : ∀ t ∈ (reconcile rates orders settlements).transactions,
      (t.status = Status.unmatched_order ∨
       t.status = Status.unmatched_settlement) →
        t.is_discrepancy = true ∧ t.discrepancy_reason.isSome = true := by
    intro t ht hun
    rcases mem_reconcile_cases ht with
      ⟨o, _, s, _, rfl⟩ | ⟨o, _, rfl⟩ | ⟨s, _, rfl⟩
    · rcases hun with hun | hun <;> simp [mkMatched] at hun
    · exact ⟨rfl, rfl⟩
    · exact ⟨rfl, rfl⟩
  have hpred : ∀ t ∈ (reconcile rates orders settlements).transactions,
      exportPredicate t = t.is_discrepancy := by
    intro t ht
    rcases hs : t.status with _ | _ | _
    · simp [exportPredicate, hs]
    · simp [exportPredicate, hs, (hkey t ht (Or.inl hs)).1]
    · simp [exportPredicate, hs, (hkey t ht (Or.inr hs)).1]
  exact ⟨hkey, hpred, List.filter_congr hpred⟩

/-- C3 witness: the theorem applied to a run with one unmatched order. -/
theorem unmatched_flagged_export_filter_witness :
    (mkUnmatchedOrder c3Order).is_discrepancy = true ∧
    (mkUnmatchedOrder c3Order).discrepancy_reason.isSome = true :=
  (unmatched_flagged_export_filter MARKET_RATES [c3Order] []).1
    (mkUnmatchedOrder c3Order)
    (by simp [reconcile, reconcileTransactions, matchOrders,
      unmatchedSettlementTxs])
    (Or.inl rfl)

/-- C4: at a matched transaction with `fx_rate_applied = 0` (amount 100,
fees 2, received 50) the engine, per the spec, leaves the derived fields
null — but the modal's re-derived gross USD is `100 / 0 = +Infinity` under
JavaScript division: a non-null, non-finite value, contradicting the claim
that all derived financial fields are null in that case. -/
theorem zero_fx_rate_modal_gross_not_null :
    (mkMatched MARKET_RATES c4Order c4Settlement).expected_usd = none ∧
    (mkMatched MARKET_RATES c4Order c4Settlement).difference = none ∧
    (mkMatched MARKET_RATES c4Order c4Settlement).is_discrepancy = false ∧
    modalGrossUsd (mkMatched MARKET_RATES c4Order c4Settlement)
      = some JSNum.posInf := by
  refine ⟨rfl, rfl, rfl, ?_⟩
  simp [mkMatched, modalGrossUsd, c4Order, c4Settlement, jsDiv]

/-- A clean matched transaction for the chart counterexample. -/
def c9Clean : Transaction :=
  { transaction_id := "C9-T1", order_date := none, settlement_date := none,
    customer_currency := none, original_amount := none,
    payment_processor := none, fx_rate_applied := none, fees_deducted := none,
    expected_usd := none, actual_usd := none, difference := none,
    difference_pct := none, fx_deviation_pct := none,
    status := Status.matched, is_discrepancy := false,
    discrepancy_reason := none }

/-- An unmatched (hence flagged) order for the chart counterexample. -/
def c9Unmatched : Transaction := mkUnmatchedOrder
  { transaction_id := "C9-T2", order_date := none, customer_currency := none,
    original_amount := none, payment_processor := none }

/-- A result with one clean matched transaction and one flagged unmatched
order, counters consistent with the transaction sequence. -/
def c9Result : ReconciliationResult :=
  { total_orders := 2, total_settlements := 0, matched := 1,
    unmatched_orders := 1, unmatched_settlements := 0, flagged_count := 1,
    total_discrepancy_usd := 0, transactions := [c9Clean, c9Unmatched],
    pattern_alerts := [] }

/-- Splitting a boolean count along a second predicate. -/
theorem countP_and_split {α : Type} (p q : α → Bool) (l : List α) :
    l.countP p = l.countP (fun a => p a && q a)
      + l.countP (fun a => p a && !q a) := by
  induction l with
  | nil => rfl
  | cons a l ih =>
    cases hp : p a <;> cases hq : q a <;>
      simp [List.countP_cons, hp, hq, ih] <;> omega

/-- C9 counterexample: in a result with one clean matched transaction and one
flagged unmatched order — counters consistent with the transaction sequence —
the chart's "Matched Clean" value `matched - flagged_count` is 0 while the
number of matched-and-clean transactions is 1. -/
theorem matched_clean_counterexample :
    c9Result.matched
      = c9Result.transactions.countP (fun t => t.status == Status.matched) ∧
    c9Result.flagged_count
      = c9Result.transactions.countP (fun t => t.is_discrepancy) ∧
    statusDataMatchedClean c9Result = 0 ∧
    c9Result.transactions.countP
      (fun t => t.status == Status.matched && !t.is_discrepancy) = 1 ∧
    statusDataMatchedClean c9Result ≠
      (c9Result.transactions.countP
        (fun t => t.status == Status.matched && !t.is_discrepancy) : Int) := by
  refine ⟨rfl, rfl, rfl, rfl, ?_⟩
  decide

/-- C9 (amended): the chart's "Matched Clean" value `matched - flagged_count`
equals the number of matched-and-clean transactions minus the number of
flagged transactions whose status is not matched, whenever the counters are
consistent with the transaction sequence; it equals the matched-and-clean
count itself only when no flagged transaction is unmatched. -/
theorem matched_clean_value (r : ReconciliationResult)
    (hm : r.matched
      = r.transactions.countP (fun t => t.status == Status.matched))
    (hf : r.flagged_count
      = r.transactions.countP (fun t => t.is_discrepancy)) :
    statusDataMatchedClean r
      = (r.transactions.countP
          (fun t => t.status == Status.matched && !t.is_discrepancy) : Int)
        - (r.transactions.countP
            (fun t => t.is_discrepancy && !(t.status == Status.matched)) :
          Int) := by
  have h1 := countP_and_split (fun t : Transaction => t.status == Status.matched)
    (fun t => t.is_discrepancy) r.transactions
  have h2 := countP_and_split (fun t : Transaction => t.is_discrepancy)
    (fun t => t.status == Status.matched) r.transactions
  have h3 : r.transactions.countP
        (fun t => t.status == Status.matched && t.is_discrepancy)
      = r.transactions.countP
        (fun t => t.is_discrepancy && (t.status == Status.matched)) := by
    refine List.countP_congr ?_
    intro t _
    rw [Bool.and_comm]
  rw [statusDataMatchedClean, hm, hf]
  omega

/-- C9 amended witness: the amended theorem applied to the concrete
counterexample result. -/
theorem matched_clean_value_witness :
    statusDataMatchedClean c9Result
      = (c9Result.transactions.countP
          (fun t => t.status == Status.matched && !t.is_discrepancy) : Int)
        - (c9Result.transactions.countP
            (fun t => t.is_discrepancy && !(t.status == Status.matched)) :
          Int) :=
  matched_clean_value c9Result (by decide) (by decide)

/-- Splitting never yields the empty list of chunks. -/
theorem splitOnChar_ne_nil (c : Char) (l : List Char) :
    splitOnChar c l ≠ [] := by
  cases l with
  | nil => simp [splitOnChar]
  | cons a rest =>
    rcases h : splitOnChar c rest with _ | ⟨x, xs⟩
    · simp [splitOnChar, h]
    · by_cases hac : a = c <;> simp [splitOnChar, h, hac]

/-- A separator-free chunk splits to itself. -/
theorem splitOnChar_of_not_mem {c : Char} {x : List Char} (h : c ∉ x) :
    splitOnChar c x = [x] := by
  induction x with
  | nil => rfl
  | cons a rest ih =>
    have hne : a ≠ c := by
      intro hac
      exact h (by simp [hac])
    have hrest : c ∉ rest := by
      intro hc
      exact h (List.mem_cons_of_mem a hc)
    simp [splitOnChar, ih hrest, hne]

/-- Splitting after a leading separator-free chunk peels it off. -/
theorem splitOnChar_append {c : Char} {x rest : List Char} (h : c ∉ x) :
    splitOnChar c (x ++ c :: rest) = x :: splitOnChar c rest := by
  induction x with
  | nil =>
    rcases h2 : splitOnChar c rest with _ | ⟨y, ys⟩
    · exact absurd h2 (splitOnChar_ne_nil c rest)
    · simp [splitOnChar, h2]
  | cons a x ih =>
    have hne : a ≠ c := by
      intro hac
      exact h (by simp [hac])
    have hx : c ∉ x := by
      intro hc
      exact h (List.mem_cons_of_mem a hc)
    simp [splitOnChar, List.cons_append, ih hx, hne]

/-- Splitting inverts joining when no chunk contains the separator. -/
theorem splitOnChar_joinOn (c : Char) (l : List (List Char)) (h0 : l ≠ [])
    (h : ∀ x ∈ l, c ∉ x) : splitOnChar c (joinOn c l) = l := by
  induction l with
  | nil => exact absurd rfl h0
  | cons x xs ih =>
    cases xs with
    | nil => simp [joinOn, splitOnChar_of_not_mem (h x (by simp))]
    | cons y ys =>
      have hx : c ∉ x := h x (by simp)
      rw [joinOn, splitOnChar_append hx]
      congr 1
      exact ih (by simp) (fun z hz => h z (List.mem_cons_of_mem x hz))

/-- A character distinct from the separator and absent from every chunk is
absent from the join. -/
theorem not_mem_joinOn {c sep : Char} (hne : c ≠ sep) (l : List (List Char))
    (h : ∀ x ∈ l, c ∉ x) : c ∉ joinOn sep l := by
  induction l with
  | nil => simp [joinOn]
  | cons x xs ih =>
    cases xs with
    | nil => simpa [joinOn] using h x (by simp)
    | cons y ys =>
      rw [joinOn]
      intro hmem
      rcases List.mem_append.mp hmem with hx | hcons
      · exact h x (by simp) hx
      · rcases List.mem_cons.mp hcons with heq | hrest
        · exact hne heq
        · exact ih (fun z hz => h z (List.mem_cons_of_mem x hz)) hrest

/-- A trivial numeral rendering for the export witness. -/
def c10Show : ℚ → String := fun _ => "0"

/-- An unmatched settlement row for the export witness. -/
def c10Tx : Transaction := mkUnmatchedSettlement
  { transaction_id := "C10-T1", settlement_date := some "2024-01-12",
    usd_amount_received := none, fx_rate_applied := none,
    fees_deducted := none }

set_option maxRecDepth 4000 in
/-- C10: the exported CSV splits on newlines into the fixed 14-column header
line followed by exactly the rows of the transactions passing the export
filter, in sequence order; each row splits on commas into that transaction's
14 field values, with null fields rendered as empty strings — provided no
field value contains a comma or newline. -/
theorem export_csv_shape (showNum : ℚ → String) (ts : List Transaction)
    (h : ∀ t ∈ ts.filter exportPredicate, ∀ f ∈ fieldValues showNum t,
      ',' ∉ f.data ∧ '\n' ∉ f.data) :
    splitOnChar '\n' (handleExportCsv showNum ts)
      = csvHeader :: (ts.filter exportPredicate).map (csvRow showNum) ∧
    csvHeader = ("transaction_id,status,order_date,settlement_date," ++
      "customer_currency,original_amount,payment_processor,fx_rate_applied," ++
      "fees_deducted,expected_usd,actual_usd,difference,difference_pct," ++
      "discrepancy_reason").data ∧
    (splitOnChar ',' csvHeader).length = 14 ∧
    (∀ t ∈ ts.filter exportPredicate,
      splitOnChar ',' (csvRow showNum t)
        = (fieldValues showNum t).map String.data ∧
      (fieldValues showNum t).length = 14) ∧
    (∀ t : Transaction, t.expected_usd = none →
      (fieldValues showNum t).getD 9 "x" = "") := by
  have hsep : ∀ t ∈ ts.filter exportPredicate,
      splitOnChar ',' (csvRow showNum t)
        = (fieldValues showNum t).map String.data := by
    intro t htm
    refine splitOnChar_joinOn ',' _ (by simp [fieldValues]) ?_
    intro x hx
    obtain ⟨f, hf, rfl⟩ := List.mem_map.mp hx
    exact (h t htm f hf).1
  refine ⟨?_, by decide, by decide, ?_, ?_⟩
  · rw [handleExportCsv]
    refine splitOnChar_joinOn '\n' _ (by simp) ?_
    intro x hx
    rcases List.mem_cons.mp hx with heq | hx
    · rw [heq]
      decide
    · obtain ⟨t, htm, rfl⟩ := List.mem_map.mp hx
      refine not_mem_joinOn (by decide) _ ?_
      intro y hy
      obtain ⟨f, hf, rfl⟩ := List.mem_map.mp hy
      exact (h t htm f hf).2
  · intro t htm
    exact ⟨hsep t htm, rfl⟩
  · intro t hnone
    simp [fieldValues, hnone]

/-- C10 witness: the theorem applied to a one-transaction export with a
trivial numeral rendering. -/
theorem export_csv_shape_witness :
    splitOnChar '\n' (handleExportCsv c10Show [c10Tx])
      = csvHeader :: ([c10Tx].filter exportPredicate).map (csvRow c10Show) ∧
    (splitOnChar ',' csvHeader).length = 14 :=
  ⟨(export_csv_shape c10Show [c10Tx] (by decide)).1,
   (export_csv_shape c10Show [c10Tx] (by decide)).2.2.1⟩

end Zephyr
